import Mathlib

/-!
Shallow embedding of `probe_all_models.py`: a smoke-test harness that lists
model identifiers from an OpenAI-compatible API and issues one minimal probe
request per model.  Pure string/JSON logic is translated directly; the HTTP
transport is modelled as an oracle (a list of responses or transport
exceptions consumed in order), and the requests/sleeps the code performs are
recorded as an event trace.  Wall-clock durations (`durationMs`,
`generatedAt`) are outside the model.
-/

namespace Probe

/-! ### String helpers (Python `startswith`, `in`, `lower`, `strip`) -/

/-- Check that list `p` is a leading segment of `s`. -/
def listStarts : List Char → List Char → Bool
  | [], _ => true
  | _ :: _, [] => false
  | a :: as, b :: bs => a == b && listStarts as bs

/-- Check that list `p` occurs contiguously inside `s`
(Python `p in s` on strings). -/
def listHas (p : List Char) : List Char → Bool
  | [] => p.isEmpty
  | s@(_ :: rest) => listStarts p s || listHas p rest

/-- Python `s.startswith(p)`. -/
def strStarts (p s : String) : Bool := listStarts p.data s.data

/-- Python `p in s` (substring containment). -/
def strHas (p s : String) : Bool := listHas p.data s.data

/-- Python `s.lower()` (the identifiers involved are ASCII, where
`Char.toLower` and Python `str.lower` agree). -/
def strLower (s : String) : String := String.mk (s.data.map Char.toLower)

/-- Python `s.strip()`: drop whitespace from both ends. -/
def pyStrip (s : String) : String :=
  String.mk (((s.data.dropWhile Char.isWhitespace).reverse.dropWhile
    Char.isWhitespace).reverse)

/-! ### JSON values and Python truthiness -/

/-- A parsed JSON body (numbers collapsed to `Int`; the probe logic never
inspects numeric values it receives). -/
inductive JVal where
  | jnull
  | jbool (b : Bool)
  | jnum (n : Int)
  | jstr (s : String)
  | jarr (elems : List JVal)
  | jobj (fields : List (String × JVal))

/-- Python truthiness of a JSON value. -/
def truthy : JVal → Bool
  | .jnull => false
  | .jbool b => b
  | .jnum n => n != 0
  | .jstr s => !s.isEmpty
  | .jarr l => !l.isEmpty
  | .jobj l => !l.isEmpty

/-- Python `j.get(k)` on a dict: `none` when the key is absent or `j` is not
a dict.  (On a non-dict Python raises `AttributeError`; every body built by
the transport layer here is a dict, so that corner does not arise.) -/
def jget : JVal → String → Option JVal
  | .jobj l, k => List.lookup k l
  | _, _ => none

/-- Python `o` truthiness where `o = j.get(k)` may be `None` (absent key). -/
def truthyOpt : Option JVal → Bool
  | none => false
  | some v => truthy v

/-! ### `err_summary` -/

/-- Python `msg[:237] + "..."` applied when the message exceeds 240 characters
(Python slices count code points, as does `List.take` on `String.data`). -/
def truncMsg (m : JVal) : JVal :=
  match m with
  | .jstr s => if s.length > 240 then .jstr (String.mk (s.data.take 237 ++ ("...").data)) else .jstr s
  | v => v

/-- Model of `err_summary(j)`: extract the error envelope when
`j` is a dict whose `"error"` entry is a dict; absent fields become `null`
(Python `None`), and the message is truncated to 240 characters. -/
def err_summary (j : JVal) : Option JVal :=
  match j with
  | .jobj l =>
    match List.lookup "error" l with
    | some (.jobj ef) =>
      some (.jobj
        [("type", (List.lookup "type" ef).getD .jnull),
         ("code", (List.lookup "code" ef).getD .jnull),
         ("param", (List.lookup "param" ef).getD .jnull),
         ("message", truncMsg ((List.lookup "message" ef).getD .jnull))])
    | _ => none
  | _ => none

/-! ### The classifier `category_for` -/

/-- The fixed category enumeration. -/
inductive Category where
  | video
  | realtime
  | computer_use
  | moderation
  | embeddings
  | transcribe
  | tts
  | audio_chat
  | deep_research
  | search
  | dalle
  | image
  | text
deriving DecidableEq

/-- Model of `category_for(mid)`: the ordered substring rules of the source, first
match wins, over the lower-cased identifier. -/
def category_for (mid : String) : Category :=
  let m := strLower mid
  if strStarts "sora-" m then .video
  else if strHas "realtime" m then .realtime
  else if strHas "computer-use" m then .computer_use
  else if strHas "moderation" m then .moderation
  else if strHas "embedding" m then .embeddings
  else if strHas "transcribe" m || m == "whisper-1" then .transcribe
  else if strStarts "tts-" m || strHas "-tts" m then .tts
  else if strHas "audio-preview" m || strStarts "gpt-audio" m then .audio_chat
  else if strHas "deep-research" m then .deep_research
  else if strHas "search-api" m || strHas "search-preview" m then .search
  else if strHas "search" m then .search
  else if m == "dall-e-2" || m == "dall-e-3" then .dalle
  else if strHas "image" m then .image
  else .text

/-- One classification rule: a predicate on the lower-cased identifier and
the category it assigns. -/
structure Rule where
  cond : String → Bool
  cat : Category

/-- The thirteen rules of spec §4.2 in their listed order (rule 13, the
`text` default, is the fall-through of `firstMatch`). -/
def specRules : List Rule :=
  [⟨fun m => strStarts "sora-" m, .video⟩,
   ⟨fun m => strHas "realtime" m, .realtime⟩,
   ⟨fun m => strHas "computer-use" m, .computer_use⟩,
   ⟨fun m => strHas "moderation" m, .moderation⟩,
   ⟨fun m => strHas "embedding" m, .embeddings⟩,
   ⟨fun m => strHas "transcribe" m || m == "whisper-1", .transcribe⟩,
   ⟨fun m => strStarts "tts-" m || strHas "-tts" m, .tts⟩,
   ⟨fun m => strHas "audio-preview" m || strStarts "gpt-audio" m, .audio_chat⟩,
   ⟨fun m => strHas "deep-research" m, .deep_research⟩,
   ⟨fun m => (strHas "search-api" m || strHas "search-preview" m) || strHas "search" m, .search⟩,
   ⟨fun m => m == "dall-e-2" || m == "dall-e-3", .dalle⟩,
   ⟨fun m => strHas "image" m, .image⟩]

/-- First-match evaluation of an ordered rule list; `text` when no rule
matches (spec §4.2, "first match wins"). -/
def firstMatch : List Rule → String → Category
  | [], _ => .text
  | r :: rs, m => if r.cond m then r.cat else firstMatch rs m

/-- The classifier as the spec words it: first matching rule of §4.2 against
the lower-cased identifier. -/
def categorize_spec (mid : String) : Category := firstMatch specRules (strLower mid)

/-! ### Transport model

The HTTP layer (`requests`) is an external collaborator.  It is modelled as
an oracle: a list of entries, each either a raw response (status, parsed
body, headers) or a transport exception carrying a description string.  Each
HTTP call the code makes consumes the next entry; an exhausted oracle counts
as a transport exception.  Exceptions propagate (`Except.error`) exactly as
Python exceptions do.  Every call additionally records an event so that
theorems can speak about which requests were issued and which sleeps were
performed. -/

/-- A raw upstream response before `post_json`'s normalization. -/
structure Resp where
  status : Nat
  body : JVal
  headers : List (String × String)

/-- The transport oracle: responses or transport exceptions, in call order. -/
def Net : Type := List (Except String Resp)

/-- Observable actions: a JSON POST, a multipart POST, or a sleep (ms). -/
inductive Event where
  | req (path : String) (payload : JVal)
  | reqMulti (path : String) (fields : JVal) (fileName : String)
  | sleep (ms : Nat)

/-- Header-map normalization of `post_json`/`post_multipart`:
`{k.lower(): v for k, v in r.headers.items()}` (later duplicates win, as in
a Python dict comprehension). -/
def lowerHeaders (hs : List (String × String)) : List (String × String) :=
  hs.foldl (fun acc kv =>
    let k := strLower kv.1
    acc.filter (fun p => p.1 != k) ++ [(k, kv.2)]) []

/-- Python `hdrs.get(k)` on the normalized header dict. -/
def hget (hs : List (String × String)) (k : String) : Option String :=
  List.lookup k hs

/-- The body `post_json` hands to its caller: when the response content-type
starts with `audio/` the body is replaced by the `{_binary: true}` sentinel;
otherwise the parsed body is passed through.  (The JSON-parse fallback to
`{_raw: ...}` happens below this model: the oracle already supplies parsed
bodies, and a raw-text body is represented as that fallback object.) -/
def normBody (r : Resp) : JVal :=
  if strStarts "audio/" ((hget (lowerHeaders r.headers) "content-type").getD "") then
    .jobj [("_binary", .jbool true)]
  else r.body

/-- Model of `post_json(client, path, payload, timeout)`: consume the next oracle
entry, normalize headers and binary bodies, and record the request event.
A transport exception propagates as `Except.error`. -/
def post_json (net : Net) (path : String) (payload : JVal) (_timeout : Nat) :
    Except String (Nat × JVal × List (String × String)) × List Event × Net :=
  match net with
  | [] => (.error "ConnectionError", [Event.req path payload], [])
  | .error e :: rest => (.error e, [Event.req path payload], rest)
  | .ok r :: rest =>
    (.ok (r.status, normBody r, lowerHeaders r.headers), [Event.req path payload], rest)

/-- Model of `post_multipart(client, path, fields, files, timeout)`: like `post_json`
but without the binary-body substitution (the source's multipart helper has
no `audio/` check). -/
def post_multipart (net : Net) (path : String) (fields : JVal) (fileName : String)
    (_timeout : Nat) :
    Except String (Nat × JVal × List (String × String)) × List Event × Net :=
  match net with
  | [] => (.error "ConnectionError", [Event.reqMulti path fields fileName], [])
  | .error e :: rest => (.error e, [Event.reqMulti path fields fileName], rest)
  | .ok r :: rest =>
    (.ok (r.status, r.body, lowerHeaders r.headers), [Event.reqMulti path fields fileName], rest)

/-! ### The text-like fallback chain -/

/-- The four-field result dict of `probe_text_like`. -/
structure TLRes where
  ok : Bool
  endpoint : String
  http : Nat
  error : Option JVal

/-- Python `base.update(extra)`: existing keys are overwritten in place and
new keys are appended in `extra`'s order (keys of `base` are unique at every
call site, as in the source). -/
def dictUpdate (base extra : List (String × JVal)) : List (String × JVal) :=
  base.map (fun p =>
    match List.lookup p.1 extra with
    | some v => (p.1, v)
    | none => p) ++
  extra.filter (fun q => !(base.any (fun p => p.1 == q.1)))

/-- The primary `/v1/responses` payload of `probe_text_like`, with the
caller's extra fields merged in. -/
def primaryPayload (mid : String) (extra : List (String × JVal)) : JVal :=
  .jobj (dictUpdate
    [("model", .jstr mid),
     ("input", .jstr "Reply with exactly: OK"),
     ("max_output_tokens", .jnum 16)] extra)

/-- The minimal chat-completions payload of the fallback chain. -/
def chatPayload (mid : String) : JVal :=
  .jobj
    [("model", .jstr mid),
     ("messages", .jarr [.jobj
       [("role", .jstr "user"), ("content", .jstr "Reply with exactly: OK")]]),
     ("max_tokens", .jnum 16)]

/-- The minimal legacy-completions payload of the fallback chain. -/
def complPayload (mid : String) : JVal :=
  .jobj
    [("model", .jstr mid),
     ("prompt", .jstr "Reply with exactly: OK"),
     ("max_tokens", .jnum 16)]

/-- Python `es and es.get("type") == "server_error"` on an optional error
summary. -/
def isServerError (es : Option JVal) : Bool :=
  match es with
  | some e =>
    match jget e "type" with
    | some (.jstr s) => s == "server_error"
    | _ => false
  | none => false

/-- The fallback legs of the chain (chat completions, then legacy
completions, then the joined failure record), entered after the primary
endpoint — including its one permitted retry — has failed with final status
`st` and final primary error summary `es`. -/
def tl_fallbacks (net : Net) (mid : String) (st : Nat) (es : Option JVal) :
    Except String TLRes × List Event × Net :=
  match post_json net "/v1/chat/completions" (chatPayload mid) 90 with
  | (.error e, ev3, net3) => (.error e, ev3, net3)
  | (.ok (st3, j3, _), ev3, net3) =>
    if st3 == 200 && !truthyOpt (jget j3 "error") then
      (.ok ⟨true, "/v1/chat/completions", st3, none⟩, ev3, net3)
    else
      match post_json net3 "/v1/completions" (complPayload mid) 90 with
      | (.error e, ev4, net4) => (.error e, ev3 ++ ev4, net4)
      | (.ok (st4, j4, _), ev4, net4) =>
        if st4 == 200 && !truthyOpt (jget j4 "error") then
          (.ok ⟨true, "/v1/completions", st4, none⟩, ev3 ++ ev4, net4)
        else
          (.ok ⟨false, "/v1/responses|/v1/chat/completions|/v1/completions", st,
            some (((es.orElse (fun _ => err_summary j3)).orElse
              (fun _ => err_summary j4)).getD (.jobj [("message", .jstr "unknown")]))⟩,
           ev3 ++ ev4, net4)

/-- Model of `probe_text_like(client, mid, extra)`: primary `/v1/responses` attempt,
one 0.5s-backoff retry when the error summary's type is `server_error`, then
the chat and legacy fallbacks via `tl_fallbacks`. -/
def probe_text_like (net : Net) (mid : String) (extra : List (String × JVal)) :
    Except String TLRes × List Event × Net :=
  let payload := primaryPayload mid extra
  match post_json net "/v1/responses" payload 90 with
  | (.error e, ev1, net1) => (.error e, ev1, net1)
  | (.ok (st, j, _), ev1, net1) =>
    if st == 200 && !truthyOpt (jget j "error") then
      (.ok ⟨true, "/v1/responses", st, none⟩, ev1, net1)
    else
      let es := err_summary j
      if isServerError es then
        match post_json net1 "/v1/responses" payload 90 with
        | (.error e, ev2, net2) => (.error e, ev1 ++ [Event.sleep 500] ++ ev2, net2)
        | (.ok (st2, j2, _), ev2, net2) =>
          if st2 == 200 && !truthyOpt (jget j2 "error") then
            (.ok ⟨true, "/v1/responses", st2, none⟩, ev1 ++ [Event.sleep 500] ++ ev2, net2)
          else
            let t := tl_fallbacks net2 mid st2 (err_summary j2)
            (t.1, ev1 ++ [Event.sleep 500] ++ ev2 ++ t.2.1, t.2.2)
      else
        let t := tl_fallbacks net1 mid st es
        (t.1, ev1 ++ t.2.1, t.2.2)

/-! ### Per-category probes and `probe_one` -/

/-- The uniform per-model outcome record (the wall-clock `durationMs` field
is outside the model).  `endpoint`/`http` are optional because the
orchestrator's exception outcome sets them to `None`; `note` models the key
that only the video probe adds. -/
structure Outcome where
  model : String
  category : Category
  ok : Bool
  skipped : Bool
  endpoint : Option String
  http : Option Nat
  error : Option JVal
  note : Option String

/-- Python `isinstance(es, dict) and es.get("param") == "size"`. -/
def paramIsSize (es : Option JVal) : Bool :=
  match es with
  | some e =>
    match jget e "param" with
    | some (.jstr s) => s == "size"
    | _ => false
  | none => false

/-- The video payload: minimal prompt with a deliberately invalid `size`. -/
def videoPayload (mid : String) : JVal :=
  .jobj [("model", .jstr mid), ("prompt", .jstr "test"), ("size", .jstr "bad")]

/-- Model of the `sora-*` validation-only probe: `ok` when the endpoint rejects the
invalid size with a 400 whose error `param` is `"size"`, or plainly succeeds. -/
def probe_video (net : Net) (mid : String) : Except String Outcome × List Event × Net :=
  match post_json net "/v1/videos" (videoPayload mid) 120 with
  | (.error e, ev, n) => (.error e, ev, n)
  | (.ok (st, j, _), ev, n) =>
    let es := err_summary j
    let ok := ((st == 400) && paramIsSize es) || ((st == 200) && !truthyOpt (jget j "error"))
    let note := if (st == 400) && ok then some "validation-only (invalid size)" else none
    (.ok { model := mid, category := .video, ok := ok, skipped := false,
           endpoint := some "/v1/videos", http := some st,
           error := if ok then none else es, note := note }, ev, n)

/-- Shared shape of the realtime/embeddings/moderation/transcribe/audio-chat/
search interpretations: `ok` iff HTTP 200 with no truthy error envelope, and
on failure the extracted summary (possibly `None`). -/
def simpleOutcome (mid : String) (cat : Category) (endpoint : String)
    (st : Nat) (j : JVal) : Outcome :=
  let ok := (st == 200) && !truthyOpt (jget j "error")
  { model := mid, category := cat, ok := ok, skipped := false,
    endpoint := some endpoint, http := some st,
    error := if ok then none else err_summary j, note := none }

def probe_realtime (net : Net) (mid : String) : Except String Outcome × List Event × Net :=
  match post_json net "/v1/realtime/sessions" (.jobj [("model", .jstr mid)]) 60 with
  | (.error e, ev, n) => (.error e, ev, n)
  | (.ok (st, j, _), ev, n) =>
    (.ok (simpleOutcome mid .realtime "/v1/realtime/sessions" st j), ev, n)

def probe_embeddings (net : Net) (mid : String) : Except String Outcome × List Event × Net :=
  match post_json net "/v1/embeddings" (.jobj [("model", .jstr mid), ("input", .jstr "ping")]) 60 with
  | (.error e, ev, n) => (.error e, ev, n)
  | (.ok (st, j, _), ev, n) =>
    (.ok (simpleOutcome mid .embeddings "/v1/embeddings" st j), ev, n)

def probe_moderation (net : Net) (mid : String) : Except String Outcome × List Event × Net :=
  match post_json net "/v1/moderations" (.jobj [("model", .jstr mid), ("input", .jstr "ping")]) 60 with
  | (.error e, ev, n) => (.error e, ev, n)
  | (.ok (st, j, _), ev, n) =>
    (.ok (simpleOutcome mid .moderation "/v1/moderations" st j), ev, n)

/-- Image-generation size selection: fixed sizes for the two legacy DALL-E
identifiers, `auto` otherwise. -/
def imageSize (mid : String) : String :=
  if mid == "dall-e-2" then "256x256"
  else if mid == "dall-e-3" then "1024x1024"
  else "auto"

def probe_image (net : Net) (mid : String) (cat : Category) :
    Except String Outcome × List Event × Net :=
  match post_json net "/v1/images/generations"
      (.jobj [("model", .jstr mid), ("prompt", .jstr "A tiny red dot"),
              ("size", .jstr (imageSize mid)), ("n", .jnum 1)]) 120 with
  | (.error e, ev, n) => (.error e, ev, n)
  | (.ok (st, j, _), ev, n) =>
    (.ok (simpleOutcome mid cat "/v1/images/generations" st j), ev, n)

/-- Python `hdrs.get("content-type")` as a JSON value (`None` when absent),
stored in the tts fallback error dict. -/
def ctJ (hdrs : List (String × String)) : JVal :=
  match hget hdrs "content-type" with
  | some s => .jstr s
  | none => .jnull

/-- The tts probe: success requires HTTP 200 *and* an `audio/` content type;
on failure the body is best-effort parsed, defaulting to an `http <st>`
message. -/
def probe_tts (net : Net) (mid : String) : Except String Outcome × List Event × Net :=
  match post_json net "/v1/audio/speech"
      (.jobj [("model", .jstr mid), ("input", .jstr "ping"), ("voice", .jstr "alloy")]) 120 with
  | (.error e, ev, n) => (.error e, ev, n)
  | (.ok (st, j, hdrs), ev, n) =>
    let ok := (st == 200) && strStarts "audio/" ((hget hdrs "content-type").getD "")
    let err := if ok then none else
      (err_summary j).orElse (fun _ =>
        some (.jobj [("message", .jstr ("http " ++ toString st)), ("content_type", ctJ hdrs)]))
    (.ok { model := mid, category := .tts, ok := ok, skipped := false,
           endpoint := some "/v1/audio/speech", http := some st,
           error := err, note := none }, ev, n)

def probe_transcribe (net : Net) (mid : String) : Except String Outcome × List Event × Net :=
  match post_multipart net "/v1/audio/transcriptions" (.jobj [("model", .jstr mid)])
      "probe.wav" 120 with
  | (.error e, ev, n) => (.error e, ev, n)
  | (.ok (st, j, _), ev, n) =>
    (.ok (simpleOutcome mid .transcribe "/v1/audio/transcriptions" st j), ev, n)

/-- The audio-chat payload (modalities text+audio, wav voice alloy). -/
def audioChatPayload (mid : String) : JVal :=
  .jobj
    [("model", .jstr mid),
     ("modalities", .jarr [.jstr "text", .jstr "audio"]),
     ("audio", .jobj [("voice", .jstr "alloy"), ("format", .jstr "wav")]),
     ("messages", .jarr [.jobj [("role", .jstr "user"), ("content", .jstr "Say OK")]]),
     ("max_tokens", .jnum 16)]

def probe_audio_chat (net : Net) (mid : String) : Except String Outcome × List Event × Net :=
  match post_json net "/v1/chat/completions" (audioChatPayload mid) 120 with
  | (.error e, ev, n) => (.error e, ev, n)
  | (.ok (st, j, _), ev, n) =>
    (.ok (simpleOutcome mid .audio_chat "/v1/chat/completions" st j), ev, n)

/-- The search-category chat payload (simple arithmetic prompt). -/
def searchPayload (mid : String) : JVal :=
  .jobj
    [("model", .jstr mid),
     ("messages", .jarr [.jobj
       [("role", .jstr "user"), ("content", .jstr "What is 1+1? Reply with OK.")]]),
     ("max_tokens", .jnum 32)]

def probe_search (net : Net) (mid : String) : Except String Outcome × List Event × Net :=
  match post_json net "/v1/chat/completions" (searchPayload mid) 120 with
  | (.error e, ev, n) => (.error e, ev, n)
  | (.ok (st, j, _), ev, n) =>
    (.ok (simpleOutcome mid .search "/v1/chat/completions" st j), ev, n)

/-- Lift a `probe_text_like` result into the uniform outcome record, as the
computer-use / deep-research / default-text arms of `probe_one` do. -/
def wrapTL (r : Except String TLRes × List Event × Net) (mid : String) (cat : Category) :
    Except String Outcome × List Event × Net :=
  match r with
  | (.error e, ev, n) => (.error e, ev, n)
  | (.ok t, ev, n) =>
    (.ok { model := mid, category := cat, ok := t.ok, skipped := false,
           endpoint := some t.endpoint, http := some t.http,
           error := t.error, note := none }, ev, n)

/-- The deep-research extra payload: one qualifying tool. -/
def deepResearchExtra : List (String × JVal) :=
  [("tools", .jarr [.jobj [("type", .jstr "web_search_preview")]])]

/-- Model of `probe_one(client, mid, wav_path)`: classify, then dispatch to the
category's probe routine.  (`wav_path` only feeds the multipart upload; the
fixture's existence is checked by `main` before any probe runs.) -/
def probe_one (net : Net) (mid : String) (_wav_path : String) :
    Except String Outcome × List Event × Net :=
  match category_for mid with
  | .video => probe_video net mid
  | .realtime => probe_realtime net mid
  | .embeddings => probe_embeddings net mid
  | .moderation => probe_moderation net mid
  | .image => probe_image net mid .image
  | .dalle => probe_image net mid .dalle
  | .tts => probe_tts net mid
  | .transcribe => probe_transcribe net mid
  | .audio_chat => probe_audio_chat net mid
  | .computer_use => wrapTL (probe_text_like net mid [("truncation", .jstr "auto")]) mid .computer_use
  | .deep_research => wrapTL (probe_text_like net mid deepResearchExtra) mid .deep_research
  | .search => probe_search net mid
  | .text => wrapTL (probe_text_like net mid []) mid .text

/-! ### The orchestrator (`main`) -/

/-- The client configuration: base URL, optional credential, auth mode. -/
structure Client where
  base_url : String
  api_key : Option String
  auth_mode : String

/-- Model of `Client.headers_json`: JSON content type, plus a bearer token when the
auth mode is `bearer`; a missing or empty credential in bearer mode raises
`RuntimeError` (modelled as `Except.error` with the source's message). -/
def headers_json (c : Client) : Except String (List (String × String)) :=
  let h := [("Content-Type", "application/json")]
  if c.auth_mode == "bearer" then
    if c.api_key.getD "" == "" then
      .error "OPENAI_API_KEY is required for auth-mode=bearer"
    else
      .ok (h ++ [("Authorization", "Bearer " ++ c.api_key.getD "")])
  else
    .ok h

/-- Python iteration over the `data` field of the models response: lists
iterate elements, dicts iterate their keys, strings iterate their characters;
other values raise `TypeError` (`none`). -/
def iterElems : JVal → Option (List JVal)
  | .jarr l => some l
  | .jobj l => some (l.map (fun p => JVal.jstr p.1))
  | .jstr s => some (s.data.map (fun ch => JVal.jstr (String.mk [ch])))
  | _ => none

/-- The identifier extraction of `main`, before deduplication and sorting:
`m.get("id").strip().lower()` for every dict entry with a truthy `id`.
`none` models the exceptions Python would raise (iterating a non-iterable
`data`, or `.strip()` on a truthy non-string id). -/
def raw_ids (body : JVal) : Option (List String) :=
  let models : JVal :=
    match body with
    | .jobj l => (List.lookup "data" l).getD (.jarr [])
    | _ => .jarr []
  match iterElems models with
  | none => none
  | some elems =>
    (elems.filter (fun m =>
      match m with
      | .jobj ml => truthyOpt (List.lookup "id" ml)
      | _ => false)).mapM (fun m =>
        match m with
        | .jobj ml =>
          match List.lookup "id" ml with
          | some (.jstr s) => some (strLower (pyStrip s))
          | _ => none
        | _ => none)

/-- Lexicographic comparison of character lists by code point — the order
Python's `sorted` uses on strings. -/
def listLeChars : List Char → List Char → Bool
  | [], _ => true
  | _ :: _, [] => false
  | a :: as, b :: bs => if a == b then listLeChars as bs else decide (a < b)

/-- Python `a <= b` on strings (code-point lexicographic order). -/
def strLe (a b : String) : Bool := listLeChars a.data b.data

/-- Python sorted-set step: deduplicate the extracted identifiers and sort them.
(Python's `sorted` over a set of strings produces the unique sorted
duplicate-free list, which any correct sort of the deduplicated list is.) -/
def model_ids_of (body : JVal) : Option (List String) :=
  (raw_ids body).map (fun l => l.dedup.insertionSort (fun a b => strLe a b = true))

/-- The failed outcome `main` builds when a single model's probe raises:
`endpoint`/`http` absent, error message `exception: <description>`. -/
def excOutcome (mid : String) (e : String) : Outcome :=
  { model := mid, category := category_for mid, ok := false, skipped := false,
    endpoint := none, http := none,
    error := some (.jobj [("message", .jstr ("exception: " ++ e))]), note := none }

/-- The probe loop of `main`: one outcome per identifier, in order; a raised
exception becomes `excOutcome` and the loop continues with the remaining
identifiers.  (The fixed inter-request sleep and the every-ten progress line
are pacing/logging, not modelled.) -/
def probe_loop (net : Net) (ids : List String) (wav_path : String) : List Outcome × Net :=
  match ids with
  | [] => ([], net)
  | mid :: rest =>
    let r := probe_one net mid wav_path
    let tail := probe_loop r.2.2 rest wav_path
    match r.1 with
    | .ok out => (out :: tail.1, tail.2)
    | .error e => (excOutcome mid e :: tail.1, tail.2)

/-- The decision structure of `main`, as a function of its environment: the
fixture-existence check (exit 2), the listing call — whose headers are built
by `headers_json`, so a bearer-mode missing credential raises here, before
any probe — the non-200 listing check (exit 3), identifier extraction, the
probe loop, and the normal exit 0.  The result pairs the process exit code
with the produced outcomes; `Except.error` is an uncaught exception aborting
the run.  (Report writing is pure formatting, out of scope.) -/
def main_run (c : Client) (wavExists : Bool) (wav_path : String)
    (listStatus : Nat) (listBody : JVal) (net : Net) :
    Except String (Nat × List Outcome) :=
  if !wavExists then .ok (2, [])
  else
    match headers_json c with
    | .error e => .error e
    | .ok _ =>
      if listStatus != 200 then .ok (3, [])
      else
        match model_ids_of listBody with
        | none => .error "TypeError"
        | some ids => .ok (0, (probe_loop net ids wav_path).1)

/-- Recognize a sleep event (used to reason about the retry backoff). -/
def isSleepEv : Event → Bool
  | .sleep _ => true
  | _ => false

/-! ## Theorems -/

theorem ite_or_collapse {α : Type} (a b : Bool) (s r : α) :
    (if a then s else if b then s else r) = (if (a || b) then s else r) := by
  cases a <;> cases b <;> rfl

/-- C1: `category_for` is a total pure function into the fixed enumeration
that evaluates the thirteen spec §4.2 rules first-match-first, and the
multiply-matching identifier `"gpt-audio-search-preview"` is classified by
the earlier rule (`audio_chat`, rule 8, ahead of `search`, rule 10). -/
theorem C1_categorize_first_match :
    (∀ mid : String, category_for mid = categorize_spec mid) ∧
    category_for "gpt-audio-search-preview" = Category.audio_chat := by
  constructor
  · intro mid
    show category_for mid = categorize_spec mid
    simp only [category_for, categorize_spec, specRules, firstMatch]
    rw [ite_or_collapse]
  · rfl

/-- A `server_error`-typed error summary can only come from a non-empty
`error` dict, which is truthy. -/
theorem truthy_error_of_isServerError (j : JVal)
    (h : isServerError (err_summary j) = true) :
    truthyOpt (jget j "error") = true := by
  cases j with
  | jobj l =>
    rcases hl : List.lookup "error" l with _ | v
    · simp [err_summary, hl, isServerError] at h
    · cases v with
      | jobj ef =>
        cases ef with
        | nil => simp [err_summary, hl, isServerError, jget, List.lookup] at h
        | cons p rest => simp [jget, hl, truthyOpt, truthy]
      | jnull => simp [err_summary, hl, isServerError] at h
      | jbool b => simp [err_summary, hl, isServerError] at h
      | jnum n => simp [err_summary, hl, isServerError] at h
      | jstr s => simp [err_summary, hl, isServerError] at h
      | jarr a => simp [err_summary, hl, isServerError] at h
  | jnull => simp [err_summary, isServerError] at h
  | jbool b => simp [err_summary, isServerError] at h
  | jnum n => simp [err_summary, isServerError] at h
  | jstr s => simp [err_summary, isServerError] at h
  | jarr a => simp [err_summary, isServerError] at h

/-- The chat/legacy fallback legs never sleep. -/
theorem tl_fallbacks_sleep_count (net : Net) (mid : String) (st : Nat)
    (es : Option JVal) :
    ((tl_fallbacks net mid st es).2.1).countP isSleepEv = 0 := by
  rcases net with _ | ⟨e3 | r3, net3⟩
  · simp [tl_fallbacks, post_json, isSleepEv]
  · simp [tl_fallbacks, post_json, isSleepEv]
  · simp only [tl_fallbacks, post_json]
    split
    · simp [isSleepEv]
    · rcases net3 with _ | ⟨e4 | r4, net4⟩
      · simp [post_json, isSleepEv]
      · simp [post_json, isSleepEv]
      · simp only [post_json]
        split
        · simp [isSleepEv]
        · simp [isSleepEv]

/-- C2: when the primary `/v1/responses` response carries an error envelope
typed `server_error`, the identical primary request is retried exactly once
after a 0.5s sleep, and a clean HTTP 200 retry yields `ok=true` with
`endpoint` the primary endpoint only; moreover any run of the chain sleeps at
most once, and a sleep can only be caused by a first response whose error
summary is typed `server_error` — no other error class triggers a retry. -/
theorem C2_server_error_retry :
    (∀ (r1 r2 : Resp) (rest : Net) (mid : String) (extra : List (String × JVal)),
      isServerError (err_summary (normBody r1)) = true →
      r2.status = 200 →
      truthyOpt (jget (normBody r2) "error") = false →
      probe_text_like (.ok r1 :: .ok r2 :: rest) mid extra =
        (.ok ⟨true, "/v1/responses", r2.status, none⟩,
         [Event.req "/v1/responses" (primaryPayload mid extra),
          Event.sleep 500,
          Event.req "/v1/responses" (primaryPayload mid extra)], rest)) ∧
    (∀ (net : Net) (mid : String) (extra : List (String × JVal)),
      ((probe_text_like net mid extra).2.1).countP isSleepEv ≤ 1) ∧
    (∀ (net : Net) (mid : String) (extra : List (String × JVal)) (ms : Nat),
      Event.sleep ms ∈ (probe_text_like net mid extra).2.1 →
      ∃ r1 rest, net = .ok r1 :: rest ∧
        isServerError (err_summary (normBody r1)) = true) := by
  refine ⟨?_, ?_, ?_⟩
  · intro r1 r2 rest mid extra hse h200 herr
    have htr := truthy_error_of_isServerError (normBody r1) hse
    simp [probe_text_like, post_json, htr, hse, h200, herr]
  · intro net mid extra
    rcases net with _ | ⟨e1 | r1, net1⟩
    · simp [probe_text_like, post_json, isSleepEv]
    · simp [probe_text_like, post_json, isSleepEv]
    · simp only [probe_text_like, post_json]
      split
      · simp [isSleepEv]
      · split
        · rcases net1 with _ | ⟨e2 | r2, net2⟩
          · simp [post_json, isSleepEv]
          · simp [post_json, isSleepEv]
          · simp only [post_json]
            split
            · simp [isSleepEv]
            · simp [isSleepEv, tl_fallbacks_sleep_count]
        · simp [isSleepEv, tl_fallbacks_sleep_count]
  · intro net mid extra ms hmem
    rcases net with _ | ⟨e1 | r1, net1⟩
    · simp [probe_text_like, post_json] at hmem
    · simp [probe_text_like, post_json] at hmem
    · refine ⟨r1, net1, rfl, ?_⟩
      simp only [probe_text_like, post_json] at hmem
      by_cases h1 : (r1.status == 200 && !truthyOpt (jget (normBody r1) "error")) = true
      · rw [if_pos h1] at hmem
        simp at hmem
      · rw [if_neg h1] at hmem
        by_cases h2 : isServerError (err_summary (normBody r1)) = true
        · exact h2
        · rw [if_neg h2] at hmem
          exfalso
          simp only [List.mem_append, List.mem_singleton] at hmem
          rcases hmem with hmem | hmem
          · simp at hmem
          · have h0 := tl_fallbacks_sleep_count net1 mid r1.status (err_summary (normBody r1))
            have := List.countP_eq_zero.mp h0 _ hmem
            simp [isSleepEv] at this

/-- Witness for C2: the spec's scenario — HTTP 500 `server_error`, then a
clean 200 on the retry. -/
theorem C2_server_error_retry_witness :
    probe_text_like
        [.ok ⟨500, .jobj [("error", .jobj [("type", .jstr "server_error"),
          ("message", .jstr "boom")])], []⟩,
         .ok ⟨200, .jobj [("id", .jstr "resp_1")], []⟩] "gpt-4o" [] =
      (.ok ⟨true, "/v1/responses", 200, none⟩,
       [Event.req "/v1/responses" (primaryPayload "gpt-4o" []),
        Event.sleep 500,
        Event.req "/v1/responses" (primaryPayload "gpt-4o" [])], []) :=
  C2_server_error_retry.1
    ⟨500, .jobj [("error", .jobj [("type", .jstr "server_error"),
      ("message", .jstr "boom")])], []⟩
    ⟨200, .jobj [("id", .jstr "resp_1")], []⟩ [] "gpt-4o" []
    (by rfl) (by rfl) (by rfl)

/-- Result shape of the fallback legs: a success carries no error; a failure
carries the joined endpoint list, the final primary status, and a non-null
error. -/
theorem tl_fallbacks_shape (net : Net) (mid : String) (st : Nat) (es : Option JVal)
    (t : TLRes) (ev : List Event) (n' : Net)
    (h : tl_fallbacks net mid st es = (.ok t, ev, n')) :
    (t.ok = true → t.error = none) ∧
    (t.ok = false →
      t.endpoint = "/v1/responses|/v1/chat/completions|/v1/completions" ∧
      t.http = st ∧ t.error ≠ none) := by
  rcases net with _ | ⟨e3 | r3, net3⟩
  · simp [tl_fallbacks, post_json] at h
  · simp [tl_fallbacks, post_json] at h
  · simp only [tl_fallbacks, post_json] at h
    split at h
    · simp only [Prod.mk.injEq, Except.ok.injEq] at h
      obtain ⟨ht, -, -⟩ := h
      subst ht
      simp
    · rcases net3 with _ | ⟨e4 | r4, net4⟩
      · simp [post_json] at h
      · simp [post_json] at h
      · simp only [post_json] at h
        split at h
        · simp only [Prod.mk.injEq, Except.ok.injEq] at h
          obtain ⟨ht, -, -⟩ := h
          subst ht
          simp
        · simp only [Prod.mk.injEq, Except.ok.injEq] at h
          obtain ⟨ht, -, -⟩ := h
          subst ht
          simp

/-- Result shape of the whole text-like chain: a success carries no error; a
failure carries the `|`-joined endpoints and a non-null error. -/
theorem ptl_shape (net : Net) (mid : String) (extra : List (String × JVal))
    (t : TLRes) (ev : List Event) (n' : Net)
    (h : probe_text_like net mid extra = (.ok t, ev, n')) :
    (t.ok = true → t.error = none) ∧
    (t.ok = false →
      t.endpoint = "/v1/responses|/v1/chat/completions|/v1/completions" ∧
      t.error ≠ none) := by
  rcases net with _ | ⟨e1 | r1, net1⟩
  · simp [probe_text_like, post_json] at h
  · simp [probe_text_like, post_json] at h
  · simp only [probe_text_like, post_json] at h
    split at h
    · simp only [Prod.mk.injEq, Except.ok.injEq] at h
      obtain ⟨ht, -, -⟩ := h
      subst ht
      simp
    · split at h
      · rcases net1 with _ | ⟨e2 | r2, net2⟩
        · simp [post_json] at h
        · simp [post_json] at h
        · simp only [post_json] at h
          split at h
          · simp only [Prod.mk.injEq, Except.ok.injEq] at h
            obtain ⟨ht, -, -⟩ := h
            subst ht
            simp
          · rcases htl : tl_fallbacks net2 mid r2.status (err_summary (normBody r2)) with
              ⟨res, ev', n''⟩
            rw [htl] at h
            simp only [Prod.mk.injEq] at h
            obtain ⟨hres, -, hn⟩ := h
            subst hres
            subst hn
            exact ⟨(tl_fallbacks_shape _ _ _ _ _ _ _ htl).1,
              fun hf => ⟨((tl_fallbacks_shape _ _ _ _ _ _ _ htl).2 hf).1,
                ((tl_fallbacks_shape _ _ _ _ _ _ _ htl).2 hf).2.2⟩⟩
      · rcases htl : tl_fallbacks net1 mid r1.status (err_summary (normBody r1)) with
          ⟨res, ev', n''⟩
        rw [htl] at h
        simp only [Prod.mk.injEq] at h
        obtain ⟨hres, -, hn⟩ := h
        subst hres
        subst hn
        exact ⟨(tl_fallbacks_shape _ _ _ _ _ _ _ htl).1,
          fun hf => ⟨((tl_fallbacks_shape _ _ _ _ _ _ _ htl).2 hf).1,
            ((tl_fallbacks_shape _ _ _ _ _ _ _ htl).2 hf).2.2⟩⟩

/-- C3: when the primary endpoint (with its one permitted retry), the
chat-style endpoint and the legacy completion endpoint all fail, the outcome
is `ok=false` with the three endpoint paths joined by `|` and a non-null
error which is the first available summary taken from the final
primary-endpoint error, then the chat response, then the legacy response
(defaulting to an `unknown` message).  Stated generally (first conjunct) and
as exact equations for the no-retry and retry shapes. -/
theorem C3_all_fail_joined :
    (∀ (net : Net) (mid : String) (extra : List (String × JVal))
       (t : TLRes) (ev : List Event) (n' : Net),
      probe_text_like net mid extra = (.ok t, ev, n') →
      t.ok = false →
      t.endpoint = "/v1/responses|/v1/chat/completions|/v1/completions" ∧
      t.error ≠ none) ∧
    (∀ (r1 r3 r4 : Resp) (rest : Net) (mid : String) (extra : List (String × JVal)),
      (r1.status == 200 && !truthyOpt (jget (normBody r1) "error")) = false →
      isServerError (err_summary (normBody r1)) = false →
      (r3.status == 200 && !truthyOpt (jget (normBody r3) "error")) = false →
      (r4.status == 200 && !truthyOpt (jget (normBody r4) "error")) = false →
      probe_text_like (.ok r1 :: .ok r3 :: .ok r4 :: rest) mid extra =
        (.ok ⟨false, "/v1/responses|/v1/chat/completions|/v1/completions", r1.status,
          some ((((err_summary (normBody r1)).orElse
            (fun _ => err_summary (normBody r3))).orElse
            (fun _ => err_summary (normBody r4))).getD
              (.jobj [("message", .jstr "unknown")]))⟩,
         [Event.req "/v1/responses" (primaryPayload mid extra),
          Event.req "/v1/chat/completions" (chatPayload mid),
          Event.req "/v1/completions" (complPayload mid)], rest)) ∧
    (∀ (r1 r2 r3 r4 : Resp) (rest : Net) (mid : String) (extra : List (String × JVal)),
      isServerError (err_summary (normBody r1)) = true →
      (r2.status == 200 && !truthyOpt (jget (normBody r2) "error")) = false →
      (r3.status == 200 && !truthyOpt (jget (normBody r3) "error")) = false →
      (r4.status == 200 && !truthyOpt (jget (normBody r4) "error")) = false →
      probe_text_like (.ok r1 :: .ok r2 :: .ok r3 :: .ok r4 :: rest) mid extra =
        (.ok ⟨false, "/v1/responses|/v1/chat/completions|/v1/completions", r2.status,
          some ((((err_summary (normBody r2)).orElse
            (fun _ => err_summary (normBody r3))).orElse
            (fun _ => err_summary (normBody r4))).getD
              (.jobj [("message", .jstr "unknown")]))⟩,
         [Event.req "/v1/responses" (primaryPayload mid extra),
          Event.sleep 500,
          Event.req "/v1/responses" (primaryPayload mid extra),
          Event.req "/v1/chat/completions" (chatPayload mid),
          Event.req "/v1/completions" (complPayload mid)], rest)) := by
  refine ⟨?_, ?_, ?_⟩
  · intro net mid extra t ev n' h hf
    exact (ptl_shape net mid extra t ev n' h).2 hf
  · intro r1 r3 r4 rest mid extra h1 hnse h3 h4
    simp [probe_text_like, tl_fallbacks, post_json, h1, hnse, h3, h4]
  · intro r1 r2 r3 r4 rest mid extra hse h2 h3 h4
    have htr := truthy_error_of_isServerError (normBody r1) hse
    simp [probe_text_like, tl_fallbacks, post_json, htr, hse, h2, h3, h4]

/-- Witness for C3: one 404 `invalid_request_error` on each of the three
endpoints (no retry: the class is not `server_error`). -/
theorem C3_all_fail_joined_witness :
    probe_text_like
        [.ok ⟨404, .jobj [("error", .jobj [("type", .jstr "invalid_request_error"),
          ("message", .jstr "no")])], []⟩,
         .ok ⟨404, .jobj [("error", .jobj [("type", .jstr "invalid_request_error"),
          ("message", .jstr "no")])], []⟩,
         .ok ⟨404, .jobj [("error", .jobj [("type", .jstr "invalid_request_error"),
          ("message", .jstr "no")])], []⟩] "gpt-4o" [] =
      (.ok ⟨false, "/v1/responses|/v1/chat/completions|/v1/completions", 404,
        some (.jobj [("type", .jstr "invalid_request_error"), ("code", .jnull),
          ("param", .jnull), ("message", .jstr "no")])⟩,
       [Event.req "/v1/responses" (primaryPayload "gpt-4o" []),
        Event.req "/v1/chat/completions" (chatPayload "gpt-4o"),
        Event.req "/v1/completions" (complPayload "gpt-4o")], []) :=
  C3_all_fail_joined.2.1
    ⟨404, .jobj [("error", .jobj [("type", .jstr "invalid_request_error"),
      ("message", .jstr "no")])], []⟩
    ⟨404, .jobj [("error", .jobj [("type", .jstr "invalid_request_error"),
      ("message", .jstr "no")])], []⟩
    ⟨404, .jobj [("error", .jobj [("type", .jstr "invalid_request_error"),
      ("message", .jstr "no")])], []⟩
    [] "gpt-4o" [] (by rfl) (by rfl) (by rfl) (by rfl)

/-- C4: a video-category probe posts exactly one request, to `/v1/videos`
with the deliberately invalid `size` field, and is `ok` exactly when the
response is an HTTP 400 whose error `param` is `"size"` or a clean HTTP 200;
on the 400 success path the note is set and the error is null (and `ok=true`
always implies a null error). -/
theorem C4_video_validation_probe :
    ∀ (mid : String) (r : Resp) (rest : Net) (wav : String),
      category_for mid = Category.video →
      ∃ out : Outcome,
        probe_one (.ok r :: rest) mid wav =
          (.ok out, [Event.req "/v1/videos" (videoPayload mid)], rest) ∧
        (out.ok = true ↔
          (r.status = 400 ∧ paramIsSize (err_summary (normBody r)) = true) ∨
          (r.status = 200 ∧ truthyOpt (jget (normBody r) "error") = false)) ∧
        (out.ok = true → r.status = 400 →
          out.note = some "validation-only (invalid size)" ∧ out.error = none) ∧
        (out.ok = true → out.error = none) := by
  intro mid r rest wav hcat
  simp only [probe_one, hcat, probe_video, post_json]
  refine ⟨_, rfl, ?_, ?_, ?_⟩
  · simp [Bool.or_eq_true, Bool.and_eq_true, beq_iff_eq, Bool.not_eq_true']
  · intro hok h400
    simp only at hok
    rw [h400] at hok
    simp only [beq_self_eq_true, Bool.true_and, show ((400 : Nat) == 200) = false from rfl,
      Bool.false_and, Bool.or_false] at hok
    simp [hok, h400]
  · intro hok
    simp only at hok
    simp [hok]

/-- Witness for C4: the spec's scenario — `sora-2` probed, HTTP 400 with
error `param == "size"`. -/
theorem C4_video_validation_probe_witness :
    category_for "sora-2" = Category.video ∧
    (∃ out : Outcome,
      probe_one
          [.ok ⟨400, .jobj [("error", .jobj [("param", .jstr "size"),
            ("message", .jstr "invalid size")])], []⟩] "sora-2" "w" =
        (.ok out, [Event.req "/v1/videos" (videoPayload "sora-2")], []) ∧
      (out.ok = true ↔
        ((400 : Nat) = 400 ∧ paramIsSize (err_summary (normBody
          ⟨400, .jobj [("error", .jobj [("param", .jstr "size"),
            ("message", .jstr "invalid size")])], []⟩)) = true) ∨
        ((400 : Nat) = 200 ∧ truthyOpt (jget (normBody
          ⟨400, .jobj [("error", .jobj [("param", .jstr "size"),
            ("message", .jstr "invalid size")])], []⟩) "error") = false)) ∧
      (out.ok = true → (400 : Nat) = 400 →
        out.note = some "validation-only (invalid size)" ∧ out.error = none) ∧
      (out.ok = true → out.error = none)) :=
  ⟨by rfl,
   C4_video_validation_probe "sora-2"
     ⟨400, .jobj [("error", .jobj [("param", .jstr "size"),
       ("message", .jstr "invalid size")])], []⟩ [] "w" (by rfl)⟩

/-- C6: `err_summary` keeps messages of at most 240 characters unchanged and
replaces longer ones by their first 237 characters followed by the 3-character
ellipsis marker, for a stored length of exactly 240. -/
theorem C6_message_truncation :
    ∀ (outer ef : List (String × JVal)) (s : String),
      List.lookup "error" outer = some (.jobj ef) →
      List.lookup "message" ef = some (.jstr s) →
      ∃ es t, err_summary (.jobj outer) = some es ∧
        jget es "message" = some (.jstr t) ∧
        (s.length > 240 →
          t.data = s.data.take 237 ++ ['.', '.', '.'] ∧ t.length = 240) ∧
        (s.length ≤ 240 → t = s) := by
  intro outer ef s h1 h2
  have hes : err_summary (.jobj outer) = some (.jobj
      [("type", (List.lookup "type" ef).getD .jnull),
       ("code", (List.lookup "code" ef).getD .jnull),
       ("param", (List.lookup "param" ef).getD .jnull),
       ("message", truncMsg (.jstr s))]) := by
    simp only [err_summary, h1, h2, Option.getD_some]
  by_cases hlen : s.length > 240
  · have hts : truncMsg (.jstr s) = .jstr (String.mk (s.data.take 237 ++ ("...").data)) := by
      simp only [truncMsg, if_pos hlen]
    refine ⟨.jobj
        [("type", (List.lookup "type" ef).getD .jnull),
         ("code", (List.lookup "code" ef).getD .jnull),
         ("param", (List.lookup "param" ef).getD .jnull),
         ("message", .jstr (String.mk (s.data.take 237 ++ ("...").data)))],
      String.mk (s.data.take 237 ++ ("...").data), ?_, ?_, ?_, ?_⟩
    · rw [hes, hts]
    · rfl
    · intro _
      constructor
      · rfl
      · show (s.data.take 237 ++ ("...").data).length = 240
        rw [List.length_append, List.length_take]
        have hs : 240 < s.data.length := hlen
        have hc : ("...").data.length = 3 := rfl
        rw [hc]
        omega
    · intro h
      exfalso
      omega
  · have hts : truncMsg (.jstr s) = .jstr s := by
      simp only [truncMsg, if_neg hlen]
    refine ⟨.jobj
        [("type", (List.lookup "type" ef).getD .jnull),
         ("code", (List.lookup "code" ef).getD .jnull),
         ("param", (List.lookup "param" ef).getD .jnull),
         ("message", .jstr s)],
      s, ?_, ?_, ?_, ?_⟩
    · rw [hes, hts]
    · rfl
    · intro h
      exfalso
      omega
    · intro _
      rfl

/-- Witness for C6: a 241-character message is truncated to length exactly
240; implicitly exercised via a concrete envelope. -/
theorem C6_message_truncation_witness :
    ∃ es t, err_summary (.jobj [("error", .jobj
        [("message", .jstr (String.mk (List.replicate 241 'a')))])]) = some es ∧
      jget es "message" = some (.jstr t) ∧
      ((String.mk (List.replicate 241 'a')).length > 240 →
        t.data = (String.mk (List.replicate 241 'a')).data.take 237 ++ ['.', '.', '.'] ∧
        t.length = 240) ∧
      ((String.mk (List.replicate 241 'a')).length ≤ 240 →
        t = String.mk (List.replicate 241 'a')) :=
  C6_message_truncation [("error", .jobj
      [("message", .jstr (String.mk (List.replicate 241 'a')))])]
    [("message", .jstr (String.mk (List.replicate 241 'a')))]
    (String.mk (List.replicate 241 'a')) (by rfl) (by rfl)

theorem simpleOutcome_facts (mid : String) (cat : Category) (ep : String)
    (st : Nat) (j : JVal) :
    (simpleOutcome mid cat ep st j).model = mid ∧
    (simpleOutcome mid cat ep st j).category = cat ∧
    ((simpleOutcome mid cat ep st j).ok = true →
      (simpleOutcome mid cat ep st j).error = none) := by
  refine ⟨rfl, rfl, ?_⟩
  intro h
  simp only [simpleOutcome] at h ⊢
  simp [h]

theorem probe_realtime_shape (net : Net) (mid : String) (out : Outcome)
    (ev : List Event) (n' : Net)
    (h : probe_realtime net mid = (.ok out, ev, n')) :
    ∃ st j, out = simpleOutcome mid .realtime "/v1/realtime/sessions" st j := by
  rcases net with _ | ⟨e | r, rest⟩
  · simp [probe_realtime, post_json] at h
  · simp [probe_realtime, post_json] at h
  · simp only [probe_realtime, post_json, Prod.mk.injEq, Except.ok.injEq] at h
    exact ⟨_, _, h.1.symm⟩

theorem probe_embeddings_shape (net : Net) (mid : String) (out : Outcome)
    (ev : List Event) (n' : Net)
    (h : probe_embeddings net mid = (.ok out, ev, n')) :
    ∃ st j, out = simpleOutcome mid .embeddings "/v1/embeddings" st j := by
  rcases net with _ | ⟨e | r, rest⟩
  · simp [probe_embeddings, post_json] at h
  · simp [probe_embeddings, post_json] at h
  · simp only [probe_embeddings, post_json, Prod.mk.injEq, Except.ok.injEq] at h
    exact ⟨_, _, h.1.symm⟩

theorem probe_moderation_shape (net : Net) (mid : String) (out : Outcome)
    (ev : List Event) (n' : Net)
    (h : probe_moderation net mid = (.ok out, ev, n')) :
    ∃ st j, out = simpleOutcome mid .moderation "/v1/moderations" st j := by
  rcases net with _ | ⟨e | r, rest⟩
  · simp [probe_moderation, post_json] at h
  · simp [probe_moderation, post_json] at h
  · simp only [probe_moderation, post_json, Prod.mk.injEq, Except.ok.injEq] at h
    exact ⟨_, _, h.1.symm⟩

theorem probe_image_shape (net : Net) (mid : String) (cat : Category) (out : Outcome)
    (ev : List Event) (n' : Net)
    (h : probe_image net mid cat = (.ok out, ev, n')) :
    ∃ st j, out = simpleOutcome mid cat "/v1/images/generations" st j := by
  rcases net with _ | ⟨e | r, rest⟩
  · simp [probe_image, post_json] at h
  · simp [probe_image, post_json] at h
  · simp only [probe_image, post_json, Prod.mk.injEq, Except.ok.injEq] at h
    exact ⟨_, _, h.1.symm⟩

theorem probe_transcribe_shape (net : Net) (mid : String) (out : Outcome)
    (ev : List Event) (n' : Net)
    (h : probe_transcribe net mid = (.ok out, ev, n')) :
    ∃ st j, out = simpleOutcome mid .transcribe "/v1/audio/transcriptions" st j := by
  rcases net with _ | ⟨e | r, rest⟩
  · simp [probe_transcribe, post_multipart] at h
  · simp [probe_transcribe, post_multipart] at h
  · simp only [probe_transcribe, post_multipart, Prod.mk.injEq, Except.ok.injEq] at h
    exact ⟨_, _, h.1.symm⟩

theorem probe_audio_chat_shape (net : Net) (mid : String) (out : Outcome)
    (ev : List Event) (n' : Net)
    (h : probe_audio_chat net mid = (.ok out, ev, n')) :
    ∃ st j, out = simpleOutcome mid .audio_chat "/v1/chat/completions" st j := by
  rcases net with _ | ⟨e | r, rest⟩
  · simp [probe_audio_chat, post_json] at h
  · simp [probe_audio_chat, post_json] at h
  · simp only [probe_audio_chat, post_json, Prod.mk.injEq, Except.ok.injEq] at h
    exact ⟨_, _, h.1.symm⟩

theorem probe_search_shape (net : Net) (mid : String) (out : Outcome)
    (ev : List Event) (n' : Net)
    (h : probe_search net mid = (.ok out, ev, n')) :
    ∃ st j, out = simpleOutcome mid .search "/v1/chat/completions" st j := by
  rcases net with _ | ⟨e | r, rest⟩
  · simp [probe_search, post_json] at h
  · simp [probe_search, post_json] at h
  · simp only [probe_search, post_json, Prod.mk.injEq, Except.ok.injEq] at h
    exact ⟨_, _, h.1.symm⟩

theorem probe_video_shape (net : Net) (mid : String) (out : Outcome)
    (ev : List Event) (n' : Net)
    (h : probe_video net mid = (.ok out, ev, n')) :
    out.model = mid ∧ out.category = .video ∧
    (out.ok = true → out.error = none) := by
  rcases net with _ | ⟨e | r, rest⟩
  · simp [probe_video, post_json] at h
  · simp [probe_video, post_json] at h
  · simp only [probe_video, post_json, Prod.mk.injEq, Except.ok.injEq] at h
    obtain ⟨hout, -, -⟩ := h
    subst hout
    refine ⟨rfl, rfl, ?_⟩
    intro hok
    simp only at hok
    simp [hok]

theorem probe_tts_shape (net : Net) (mid : String) (out : Outcome)
    (ev : List Event) (n' : Net)
    (h : probe_tts net mid = (.ok out, ev, n')) :
    out.model = mid ∧ out.category = .tts ∧
    (out.ok = true → out.error = none) ∧
    (out.ok = false → out.error ≠ none) := by
  rcases net with _ | ⟨e | r, rest⟩
  · simp [probe_tts, post_json] at h
  · simp [probe_tts, post_json] at h
  · simp only [probe_tts, post_json, Prod.mk.injEq, Except.ok.injEq] at h
    obtain ⟨hout, -, -⟩ := h
    subst hout
    refine ⟨rfl, rfl, ?_, ?_⟩
    · intro hok
      simp only at hok
      simp [hok]
    · intro hok
      simp only at hok
      simp only [hok]
      rcases err_summary (normBody r) with _ | e <;> simp [Option.orElse]

theorem wrapTL_shape (r : Except String TLRes × List Event × Net) (mid : String)
    (cat : Category) (out : Outcome) (ev : List Event) (n' : Net)
    (h : wrapTL r mid cat = (.ok out, ev, n')) :
    ∃ t, r.1 = .ok t ∧ out.model = mid ∧ out.category = cat ∧
      out.ok = t.ok ∧ out.error = t.error := by
  rcases r with ⟨res, ev0, n0⟩
  cases res with
  | error e => simp [wrapTL] at h
  | ok t =>
    simp only [wrapTL, Prod.mk.injEq, Except.ok.injEq] at h
    obtain ⟨hout, -, -⟩ := h
    subst hout
    exact ⟨t, rfl, rfl, rfl, rfl, rfl⟩

/-- Every normally-returned outcome of `probe_one` carries the probed model,
its classified category, no error when `ok`, and — for the text-like-chain
categories and tts — a non-null error when not `ok`. -/
theorem probe_one_shape (net : Net) (mid wav : String) (out : Outcome)
    (ev : List Event) (n' : Net)
    (h : probe_one net mid wav = (.ok out, ev, n')) :
    out.model = mid ∧ out.category = category_for mid ∧
    (out.ok = true → out.error = none) ∧
    (out.ok = false →
      (out.category = .text ∨ out.category = .computer_use ∨
       out.category = .deep_research ∨ out.category = .tts) →
      out.error ≠ none) := by
  cases hcat : category_for mid with
  | video =>
    simp only [probe_one, hcat] at h
    obtain ⟨hm, hc, hok⟩ := probe_video_shape _ _ _ _ _ h
    refine ⟨hm, hc, hok, ?_⟩
    intro _ hcats
    rw [hc] at hcats
    rcases hcats with hx | hx | hx | hx <;> simp at hx
  | realtime =>
    simp only [probe_one, hcat] at h
    obtain ⟨st, j, hout⟩ := probe_realtime_shape _ _ _ _ _ h
    subst hout
    obtain ⟨hm, hc, hok⟩ := simpleOutcome_facts mid .realtime "/v1/realtime/sessions" st j
    refine ⟨hm, hc, hok, ?_⟩
    intro _ hcats
    rw [hc] at hcats
    rcases hcats with hx | hx | hx | hx <;> simp at hx
  | embeddings =>
    simp only [probe_one, hcat] at h
    obtain ⟨st, j, hout⟩ := probe_embeddings_shape _ _ _ _ _ h
    subst hout
    obtain ⟨hm, hc, hok⟩ := simpleOutcome_facts mid .embeddings "/v1/embeddings" st j
    refine ⟨hm, hc, hok, ?_⟩
    intro _ hcats
    rw [hc] at hcats
    rcases hcats with hx | hx | hx | hx <;> simp at hx
  | moderation =>
    simp only [probe_one, hcat] at h
    obtain ⟨st, j, hout⟩ := probe_moderation_shape _ _ _ _ _ h
    subst hout
    obtain ⟨hm, hc, hok⟩ := simpleOutcome_facts mid .moderation "/v1/moderations" st j
    refine ⟨hm, hc, hok, ?_⟩
    intro _ hcats
    rw [hc] at hcats
    rcases hcats with hx | hx | hx | hx <;> simp at hx
  | image =>
    simp only [probe_one, hcat] at h
    obtain ⟨st, j, hout⟩ := probe_image_shape _ _ _ _ _ _ h
    subst hout
    obtain ⟨hm, hc, hok⟩ := simpleOutcome_facts mid .image "/v1/images/generations" st j
    refine ⟨hm, hc, hok, ?_⟩
    intro _ hcats
    rw [hc] at hcats
    rcases hcats with hx | hx | hx | hx <;> simp at hx
  | dalle =>
    simp only [probe_one, hcat] at h
    obtain ⟨st, j, hout⟩ := probe_image_shape _ _ _ _ _ _ h
    subst hout
    obtain ⟨hm, hc, hok⟩ := simpleOutcome_facts mid .dalle "/v1/images/generations" st j
    refine ⟨hm, hc, hok, ?_⟩
    intro _ hcats
    rw [hc] at hcats
    rcases hcats with hx | hx | hx | hx <;> simp at hx
  | tts =>
    simp only [probe_one, hcat] at h
    obtain ⟨hm, hc, hok, hfail⟩ := probe_tts_shape _ _ _ _ _ h
    exact ⟨hm, hc, hok, fun hf _ => hfail hf⟩
  | transcribe =>
    simp only [probe_one, hcat] at h
    obtain ⟨st, j, hout⟩ := probe_transcribe_shape _ _ _ _ _ h
    subst hout
    obtain ⟨hm, hc, hok⟩ := simpleOutcome_facts mid .transcribe "/v1/audio/transcriptions" st j
    refine ⟨hm, hc, hok, ?_⟩
    intro _ hcats
    rw [hc] at hcats
    rcases hcats with hx | hx | hx | hx <;> simp at hx
  | audio_chat =>
    simp only [probe_one, hcat] at h
    obtain ⟨st, j, hout⟩ := probe_audio_chat_shape _ _ _ _ _ h
    subst hout
    obtain ⟨hm, hc, hok⟩ := simpleOutcome_facts mid .audio_chat "/v1/chat/completions" st j
    refine ⟨hm, hc, hok, ?_⟩
    intro _ hcats
    rw [hc] at hcats
    rcases hcats with hx | hx | hx | hx <;> simp at hx
  | computer_use =>
    simp only [probe_one, hcat] at h
    obtain ⟨t, hr, hm, hc, hok, herr⟩ := wrapTL_shape _ _ _ _ _ _ h
    rcases hptl : probe_text_like net mid [("truncation", .jstr "auto")] with ⟨res, ev0, n0⟩
    rw [hptl] at hr
    simp only at hr
    subst hr
    have pshape := ptl_shape _ _ _ _ _ _ hptl
    refine ⟨hm, hc, ?_, ?_⟩
    · intro hoktrue
      rw [herr]
      exact pshape.1 (by rw [← hok]; exact hoktrue)
    · intro hf _
      rw [herr]
      exact (pshape.2 (by rw [← hok]; exact hf)).2
  | deep_research =>
    simp only [probe_one, hcat] at h
    obtain ⟨t, hr, hm, hc, hok, herr⟩ := wrapTL_shape _ _ _ _ _ _ h
    rcases hptl : probe_text_like net mid deepResearchExtra with ⟨res, ev0, n0⟩
    rw [hptl] at hr
    simp only at hr
    subst hr
    have pshape := ptl_shape _ _ _ _ _ _ hptl
    refine ⟨hm, hc, ?_, ?_⟩
    · intro hoktrue
      rw [herr]
      exact pshape.1 (by rw [← hok]; exact hoktrue)
    · intro hf _
      rw [herr]
      exact (pshape.2 (by rw [← hok]; exact hf)).2
  | search =>
    simp only [probe_one, hcat] at h
    obtain ⟨st, j, hout⟩ := probe_search_shape _ _ _ _ _ h
    subst hout
    obtain ⟨hm, hc, hok⟩ := simpleOutcome_facts mid .search "/v1/chat/completions" st j
    refine ⟨hm, hc, hok, ?_⟩
    intro _ hcats
    rw [hc] at hcats
    rcases hcats with hx | hx | hx | hx <;> simp at hx
  | text =>
    simp only [probe_one, hcat] at h
    obtain ⟨t, hr, hm, hc, hok, herr⟩ := wrapTL_shape _ _ _ _ _ _ h
    rcases hptl : probe_text_like net mid [] with ⟨res, ev0, n0⟩
    rw [hptl] at hr
    simp only at hr
    subst hr
    have pshape := ptl_shape _ _ _ _ _ _ hptl
    refine ⟨hm, hc, ?_, ?_⟩
    · intro hoktrue
      rw [herr]
      exact pshape.1 (by rw [← hok]; exact hoktrue)
    · intro hf _
      rw [herr]
      exact (pshape.2 (by rw [← hok]; exact hf)).2

/-- The probe loop yields exactly one outcome per identifier, in order, each
carrying its identifier — whether the probe returned or raised. -/
theorem probe_loop_models (ids : List String) :
    ∀ (net : Net) (wav : String),
      ((probe_loop net ids wav).1).map (fun o => o.model) = ids := by
  induction ids with
  | nil =>
    intro net wav
    rfl
  | cons mid rest ih =>
    intro net wav
    simp only [probe_loop]
    rcases hp : probe_one net mid wav with ⟨res, ev, net2⟩
    cases res with
    | ok out =>
      show ((out :: (probe_loop net2 rest wav).1).map (fun o => o.model)) = mid :: rest
      rw [List.map_cons, ih net2 wav, (probe_one_shape net mid wav out ev net2 hp).1]
    | error e =>
      show ((excOutcome mid e :: (probe_loop net2 rest wav).1).map (fun o => o.model)) = mid :: rest
      rw [List.map_cons, ih net2 wav]
      rfl

/-- C10: for every outcome `probe_one` returns normally, `ok=true` implies a
null error; and for the text-like-chain categories (text, computer-use,
deep-research) and tts, `ok=false` implies a non-null error. -/
theorem C10_ok_error_invariant :
    ∀ (net : Net) (mid wav : String) (out : Outcome) (ev : List Event) (n' : Net),
      probe_one net mid wav = (.ok out, ev, n') →
      (out.ok = true → out.error = none) ∧
      (out.ok = false →
        (out.category = .text ∨ out.category = .computer_use ∨
         out.category = .deep_research ∨ out.category = .tts) →
        out.error ≠ none) :=
  fun net mid wav out ev n' h =>
    ⟨(probe_one_shape net mid wav out ev n' h).2.2.1,
     (probe_one_shape net mid wav out ev n' h).2.2.2⟩

/-- Witness for C10: a clean 200 on the primary endpoint for a text model. -/
theorem C10_ok_error_invariant_witness :
    (({ model := "gpt-4o", category := .text, ok := true, skipped := false, endpoint := some "/v1/responses", http := some 200, error := none, note := none } : Outcome).ok = true →
      ({ model := "gpt-4o", category := .text, ok := true, skipped := false, endpoint := some "/v1/responses", http := some 200, error := none, note := none } : Outcome).error = none) ∧
    (({ model := "gpt-4o", category := .text, ok := true, skipped := false, endpoint := some "/v1/responses", http := some 200, error := none, note := none } : Outcome).ok = false →
      (({ model := "gpt-4o", category := .text, ok := true, skipped := false, endpoint := some "/v1/responses", http := some 200, error := none, note := none } : Outcome).category = .text ∨
       ({ model := "gpt-4o", category := .text, ok := true, skipped := false, endpoint := some "/v1/responses", http := some 200, error := none, note := none } : Outcome).category = .computer_use ∨
       ({ model := "gpt-4o", category := .text, ok := true, skipped := false, endpoint := some "/v1/responses", http := some 200, error := none, note := none } : Outcome).category = .deep_research ∨
       ({ model := "gpt-4o", category := .text, ok := true, skipped := false, endpoint := some "/v1/responses", http := some 200, error := none, note := none } : Outcome).category = .tts) →
      ({ model := "gpt-4o", category := .text, ok := true, skipped := false, endpoint := some "/v1/responses", http := some 200, error := none, note := none } : Outcome).error ≠ none) :=
  C10_ok_error_invariant [.ok ⟨200, .jobj [], []⟩] "gpt-4o" "w"
    { model := "gpt-4o", category := .text, ok := true, skipped := false, endpoint := some "/v1/responses", http := some 200, error := none, note := none }
    [Event.req "/v1/responses" (primaryPayload "gpt-4o" [])] [] (by rfl)

/-- C7: the orchestrator converts a raised exception during one model's
probe into a failed outcome carrying the exception's description and keeps
iterating over the remaining models — one outcome per identifier always. -/
theorem C7_exception_isolation :
    (∀ (net : Net) (ids : List String) (wav : String),
      ((probe_loop net ids wav).1).map (fun o => o.model) = ids) ∧
    (∀ (net : Net) (mid : String) (rest : List String) (wav : String)
       (e : String) (ev : List Event) (net2 : Net),
      probe_one net mid wav = (.error e, ev, net2) →
      probe_loop net (mid :: rest) wav =
        (excOutcome mid e :: (probe_loop net2 rest wav).1,
         (probe_loop net2 rest wav).2)) ∧
    (∀ mid e, (excOutcome mid e).ok = false ∧
      (excOutcome mid e).error =
        some (.jobj [("message", .jstr ("exception: " ++ e))])) := by
  refine ⟨?_, ?_, ?_⟩
  · intro net ids wav
    exact probe_loop_models ids net wav
  · intro net mid rest wav e ev net2 hp
    simp only [probe_loop]
    rw [hp]
  · intro mid e
    exact ⟨rfl, rfl⟩

/-- Witness for C7: a transport exception on the only attempt of a text-like
probe becomes an `excOutcome`, and the loop goes on with the rest. -/
theorem C7_exception_isolation_witness :
    probe_loop [.error "boom"] ["gpt-4o", "gpt-4o-mini"] "w" =
      (excOutcome "gpt-4o" "boom" :: (probe_loop [] ["gpt-4o-mini"] "w").1,
       (probe_loop [] ["gpt-4o-mini"] "w").2) :=
  C7_exception_isolation.2.1 [.error "boom"] "gpt-4o" ["gpt-4o-mini"] "w"
    "boom" [Event.req "/v1/responses" (primaryPayload "gpt-4o" [])] [] (by rfl)

theorem listLeChars_total : ∀ as bs : List Char,
    listLeChars as bs = true ∨ listLeChars bs as = true := by
  intro as
  induction as with
  | nil =>
    intro bs
    left
    rfl
  | cons a as ih =>
    intro bs
    cases bs with
    | nil =>
      right
      rfl
    | cons b bs =>
      by_cases hab : a = b
      · subst hab
        rcases ih bs with h | h
        · left
          simp [listLeChars, h]
        · right
          simp [listLeChars, h]
      · rcases lt_or_gt_of_ne hab with hlt | hgt
        · left
          simp [listLeChars, beq_iff_eq, hab, hlt]
        · right
          have hba : b ≠ a := fun h => hab h.symm
          simp [listLeChars, beq_iff_eq, hba, hgt]

theorem listLeChars_trans : ∀ as bs cs : List Char,
    listLeChars as bs = true → listLeChars bs cs = true →
    listLeChars as cs = true := by
  intro as
  induction as with
  | nil =>
    intro bs cs _ _
    rfl
  | cons a as ih =>
    intro bs cs h1 h2
    cases bs with
    | nil => simp [listLeChars] at h1
    | cons b bs =>
      cases cs with
      | nil => simp [listLeChars] at h2
      | cons c cs =>
        by_cases hab : a = b
        · subst hab
          by_cases hac : a = c
          · subst hac
            simp only [listLeChars, beq_self_eq_true, if_true] at h1 h2 ⊢
            exact ih bs cs h1 h2
          · simp [listLeChars, beq_iff_eq, hac] at h2 ⊢
            exact h2
        · by_cases hbc : b = c
          · subst hbc
            simp [listLeChars, beq_iff_eq, hab] at h1 ⊢
            exact h1
          · simp [listLeChars, beq_iff_eq, hab, hbc] at h1 h2
            have hac : a < c := lt_trans h1 h2
            simp [listLeChars, beq_iff_eq, ne_of_lt hac, hac]

/-- C5: the outcomes of a run carry pairwise-distinct model identifiers that
are exactly the deduplicated, trimmed-and-lowercased, sorted identifiers of
the listing call — one outcome per identifier regardless of probe result. -/
theorem C5_unique_sorted_models :
    ∀ (body : JVal) (raw ids : List String) (net : Net) (wav : String),
      raw_ids body = some raw →
      model_ids_of body = some ids →
      ((probe_loop net ids wav).1).map (fun o => o.model) = ids ∧
      (((probe_loop net ids wav).1).map (fun o => o.model)).Nodup ∧
      List.Sorted (fun a b => strLe a b = true) ids ∧
      (∀ s, s ∈ ids ↔ s ∈ raw) := by
  intro body raw ids net wav hraw hids
  have hids' : ids = raw.dedup.insertionSort (fun a b => strLe a b = true) := by
    rw [model_ids_of, hraw, Option.map_some'] at hids
    exact (Option.some.inj hids).symm
  have hperm := List.perm_insertionSort (fun a b => strLe a b = true) raw.dedup
  refine ⟨probe_loop_models ids net wav, ?_, ?_, ?_⟩
  · rw [probe_loop_models ids net wav, hids']
    exact hperm.nodup_iff.mpr (List.nodup_dedup raw)
  · rw [hids']
    haveI : IsTotal String (fun a b => strLe a b = true) :=
      ⟨fun a b => listLeChars_total a.data b.data⟩
    haveI : IsTrans String (fun a b => strLe a b = true) :=
      ⟨fun a b c => listLeChars_trans a.data b.data c.data⟩
    exact List.sorted_insertionSort _ _
  · intro s
    rw [hids', hperm.mem_iff, List.mem_dedup]

/-- Witness for C5: the spec's discovery scenario with `gpt-4o`, `DALL-E-3`
and `whisper-1`. -/
theorem C5_unique_sorted_models_witness :
    ((probe_loop [] ["dall-e-3", "gpt-4o", "whisper-1"] "w").1).map
        (fun o => o.model) = ["dall-e-3", "gpt-4o", "whisper-1"] ∧
    (((probe_loop [] ["dall-e-3", "gpt-4o", "whisper-1"] "w").1).map
        (fun o => o.model)).Nodup ∧
    List.Sorted (fun a b => strLe a b = true) ["dall-e-3", "gpt-4o", "whisper-1"] ∧
    (∀ s, s ∈ ["dall-e-3", "gpt-4o", "whisper-1"] ↔
      s ∈ ["gpt-4o", "dall-e-3", "whisper-1"]) :=
  C5_unique_sorted_models
    (.jobj [("data", .jarr [.jobj [("id", .jstr "gpt-4o")],
      .jobj [("id", .jstr "DALL-E-3")], .jobj [("id", .jstr "whisper-1")]])])
    ["gpt-4o", "dall-e-3", "whisper-1"]
    ["dall-e-3", "gpt-4o", "whisper-1"] [] "w" (by rfl) (by rfl)

/-- C8: the orchestrating entry point exits 2 when the probe wav fixture is
missing, 3 when the model listing is not HTTP 200 (with zero outcomes in
both cases), and 0 on normal completion whatever the individual probe
results; the three codes are pairwise distinct. -/
theorem C8_exit_codes :
    (∀ (c : Client) (wav : String) (st : Nat) (body : JVal) (net : Net),
      main_run c false wav st body net = .ok (2, [])) ∧
    (∀ (c : Client) (h : List (String × String)) (wav : String) (st : Nat)
       (body : JVal) (net : Net),
      headers_json c = .ok h → st ≠ 200 →
      main_run c true wav st body net = .ok (3, [])) ∧
    (∀ (c : Client) (h : List (String × String)) (wav : String)
       (body : JVal) (net : Net) (ids : List String),
      headers_json c = .ok h →
      model_ids_of body = some ids →
      main_run c true wav 200 body net = .ok (0, (probe_loop net ids wav).1)) ∧
    ((2 : Nat) ≠ 0 ∧ (3 : Nat) ≠ 0 ∧ (2 : Nat) ≠ 3) := by
  refine ⟨?_, ?_, ?_, by decide⟩
  · intro c wav st body net
    rfl
  · intro c h wav st body net hh hst
    simp [main_run, hh, hst]
  · intro c h wav body net ids hh hids
    simp [main_run, hh, hids]

/-- Witness for C8: all three exits at concrete inputs. -/
theorem C8_exit_codes_witness :
    main_run ⟨"u", some "k", "bearer"⟩ false "w" 200 (.jobj []) [] = .ok (2, []) ∧
    main_run ⟨"u", some "k", "bearer"⟩ true "w" 401 (.jobj []) [] = .ok (3, []) ∧
    main_run ⟨"u", some "k", "bearer"⟩ true "w" 200
        (.jobj [("data", .jarr [.jobj [("id", .jstr "gpt-4o")]])]) [] =
      .ok (0, (probe_loop [] ["gpt-4o"] "w").1) :=
  ⟨C8_exit_codes.1 ⟨"u", some "k", "bearer"⟩ "w" 200 (.jobj []) [],
   C8_exit_codes.2.1 ⟨"u", some "k", "bearer"⟩
     [("Content-Type", "application/json"), ("Authorization", "Bearer k")]
     "w" 401 (.jobj []) [] (by rfl) (by decide),
   C8_exit_codes.2.2.1 ⟨"u", some "k", "bearer"⟩
     [("Content-Type", "application/json"), ("Authorization", "Bearer k")]
     "w" (.jobj [("data", .jarr [.jobj [("id", .jstr "gpt-4o")]])]) []
     ["gpt-4o"] (by rfl) (by rfl)⟩

/-- C9: in bearer mode a missing or empty credential makes the run abort
with the configuration error before any probe outcome exists; in `none` mode
no Authorization header is sent and no credential is required. -/
theorem C9_auth_modes :
    (∀ c : Client, c.auth_mode = "bearer" → c.api_key.getD "" = "" →
      headers_json c = .error "OPENAI_API_KEY is required for auth-mode=bearer" ∧
      ∀ (wav : String) (st : Nat) (body : JVal) (net : Net),
        main_run c true wav st body net =
          .error "OPENAI_API_KEY is required for auth-mode=bearer") ∧
    (∀ c : Client, c.auth_mode = "none" →
      headers_json c = .ok [("Content-Type", "application/json")] ∧
      List.lookup "Authorization" [("Content-Type", "application/json")] = none) := by
  constructor
  · intro c hmode hkey
    have hh : headers_json c =
        .error "OPENAI_API_KEY is required for auth-mode=bearer" := by
      simp [headers_json, hmode, hkey]
    refine ⟨hh, ?_⟩
    intro wav st body net
    simp [main_run, hh]
  · intro c hmode
    constructor
    · simp [headers_json, hmode]
    · rfl

/-- Witness for C9: a bearer client with no key aborts; a `none`-mode client
with no key succeeds without an Authorization header. -/
theorem C9_auth_modes_witness :
    (headers_json ⟨"u", none, "bearer"⟩ =
        .error "OPENAI_API_KEY is required for auth-mode=bearer" ∧
      ∀ (wav : String) (st : Nat) (body : JVal) (net : Net),
        main_run ⟨"u", none, "bearer"⟩ true wav st body net =
          .error "OPENAI_API_KEY is required for auth-mode=bearer") ∧
    (headers_json ⟨"u", none, "none"⟩ = .ok [("Content-Type", "application/json")] ∧
      List.lookup "Authorization" [("Content-Type", "application/json")] = none) :=
  ⟨C9_auth_modes.1 ⟨"u", none, "bearer"⟩ (by rfl) (by rfl),
   C9_auth_modes.2 ⟨"u", none, "none"⟩ (by rfl)⟩

end Probe
